import Mathlib

/-!
Shallow embedding of the Shopify content audit-and-optimize pipeline:
the Checker agent (`checker_mcp.py`), the Generator agent
(`generator_mcp.py`) and the coordinating server (`mcp_server.py`).
Strings are Lean `String`s, Python `len` is `String.length`, Python
dictionaries with fixed keys are structures, Python `None` is `Option`.
All inputs in play are ASCII, so Python `str.lower` is modelled by
mapping `Char.toLower`.
-/

set_option maxHeartbeats 1000000
set_option maxRecDepth 40000

/-- Lowercase every character, mirroring Python `str.lower()` on ASCII text. -/
def strLower (s : String) : String :=
  String.mk (s.data.map Char.toLower)

/-- Whether the first character list is an initial segment of the second. -/
def startsWithL : List Char → List Char → Bool
  | [], _ => true
  | _ :: _, [] => false
  | p :: ps, h :: hs => p == h && startsWithL ps hs

/-- Whether `pat` occurs as a contiguous run inside `hay`, mirroring Python `pat in hay`. -/
def containsL : List Char → List Char → Bool
  | [], pat => startsWithL pat []
  | c :: rest, pat => startsWithL pat (c :: rest) || containsL rest pat

/-- Python substring membership `pat in hay` on strings. -/
def strContains (hay pat : String) : Bool :=
  containsL hay.data pat.data

/-- Case-insensitive substring membership: Python `pat.lower() in hay.lower()`. -/
def containsCI (hay pat : String) : Bool :=
  strContains (strLower hay) (strLower pat)

/-- Python `s.startswith(pat)`. -/
def strStartsWith (s pat : String) : Bool :=
  startsWithL pat.data s.data

/-- An apostrophe character, as a string. -/
def apos : String :=
  String.singleton (Char.ofNat 39)

/-- Python `str.strip()` on ASCII text: drop leading and trailing whitespace. -/
def pyStrip (s : String) : String :=
  String.mk (((s.data.dropWhile Char.isWhitespace).reverse.dropWhile Char.isWhitespace).reverse)

/-- Product record handed to the pipeline (fields used by the logic; missing
optional fields in the Python dicts are modelled as empty strings, which is
exactly what `product.get(key, "")` yields). -/
structure Product where
  id : String
  title : String
  description : String
  seo_title : String
  seo_description : String
  vendor : String
  product_type : String
deriving DecidableEq, Repr

/-- One issue reported by the Checker: `{"type": ..., "severity": ..., "message": ...}`. -/
structure Issue where
  type : String
  severity : String
  message : String
deriving DecidableEq, Repr

/-- Result of `CheckerMCP.audit_product`. -/
structure AuditResult where
  product_id : String
  product_title : String
  issues_found : Nat
  issues : List Issue
  severity : String
deriving DecidableEq, Repr

/-- Result of `GeneratorMCP.generate_optimized_content`; `None` fields are `Option.none`. -/
structure Optimization where
  product_id : String
  original_description : String
  optimized_description : Option String
  optimized_seo_title : Option String
  optimized_seo_description : Option String
  improvements_made : List String
deriving DecidableEq, Repr

/-- Consolidated per-product result built by `MCPServer.process_single_product`. -/
structure ProcessingResult where
  product_id : String
  product_title : String
  audit : AuditResult
  optimization : Option Optimization
  action_required : Bool
  priority : String
deriving DecidableEq, Repr

/-- Shopify update payload built by `MCPServer.export_for_shopify`; the three
optional fields model the keys of the `updates` dictionary. -/
structure ShopifyPayload where
  product_id : String
  updates_description : Option String
  updates_seo_title : Option String
  updates_seo_description : Option String
deriving DecidableEq, Repr

/-! Checker MCP (`checker_mcp.py`). -/

def MIN_DESCRIPTION_LENGTH : Nat := 100

def MIN_SEO_TITLE_LENGTH : Nat := 30

def MIN_SEO_DESCRIPTION_LENGTH : Nat := 80

def MAX_SEO_DESCRIPTION_LENGTH : Nat := 160

def PREMIUM_KEYWORDS : List String :=
  ["premium", "luxury", "exclusive", "professional", "exceptional"]

def CTA_KEYWORDS : List String :=
  ["discover", "experience", "transform", "elevate", "shop now", "order", "buy"]

def BENEFIT_KEYWORDS : List String :=
  ["benefits", "results", "improves", "enhances", "reduces", "promotes"]

def vague_terms : List String :=
  ["good", "nice", "stuff", "things", "really"]

/-- CheckerMCP._check_description. -/
def check_description (description : String) : List Issue :=
  let issues : List Issue := []
  let issues :=
    if description.length < MIN_DESCRIPTION_LENGTH then
      issues ++ [{ type := "description_length", severity := "high",
                   message := "Description too short (" ++ toString description.length
                     ++ " chars). Minimum: " ++ toString MIN_DESCRIPTION_LENGTH }]
    else issues
  let issues :=
    if description == "" || pyStrip description == "" then
      issues ++ [{ type := "missing_description", severity := "critical",
                   message := "Product description is missing" }]
    else issues
  let found_vague := vague_terms.filter (fun term => containsCI description term)
  let issues :=
    if found_vague ≠ [] then
      issues ++ [{ type := "vague_language", severity := "medium",
                   message := "Contains vague terms: " ++ String.intercalate ", " found_vague }]
    else issues
  issues

/-- CheckerMCP._check_seo_fields. -/
def check_seo_fields (product : Product) : List Issue :=
  let seo_title := product.seo_title
  let seo_description := product.seo_description
  let issues : List Issue := []
  let issues :=
    if seo_title == "" || seo_title.length < MIN_SEO_TITLE_LENGTH then
      issues ++ [{ type := "seo_title", severity := "high",
                   message := "SEO title missing or too short" }]
    else issues
  let issues :=
    if seo_description == "" then
      issues ++ [{ type := "seo_description_missing", severity := "high",
                   message := "SEO description is missing" }]
    else if seo_description.length < MIN_SEO_DESCRIPTION_LENGTH then
      issues ++ [{ type := "seo_description_short", severity := "medium",
                   message := "SEO description too short (" ++ toString seo_description.length
                     ++ " chars)" }]
    else if seo_description.length > MAX_SEO_DESCRIPTION_LENGTH then
      issues ++ [{ type := "seo_description_long", severity := "low",
                   message := "SEO description too long (" ++ toString seo_description.length
                     ++ " chars). Max: " ++ toString MAX_SEO_DESCRIPTION_LENGTH }]
    else issues
  issues

/-- CheckerMCP._check_tone. -/
def check_tone (description : String) : List Issue :=
  let has_premium_tone := PREMIUM_KEYWORDS.any (fun keyword => containsCI description keyword)
  if !has_premium_tone then
    [{ type := "tone_not_premium", severity := "medium",
       message := "Missing premium/luxury brand tone" }]
  else []

/-- CheckerMCP._check_conversion_elements. -/
def check_conversion_elements (description : String) : List Issue :=
  let has_cta := CTA_KEYWORDS.any (fun keyword => containsCI description keyword)
  let issues : List Issue := []
  let issues :=
    if !has_cta then
      issues ++ [{ type := "missing_cta", severity := "medium",
                   message := "Missing clear call-to-action" }]
    else issues
  let has_benefits := BENEFIT_KEYWORDS.any (fun keyword => containsCI description keyword)
  let issues :=
    if !has_benefits then
      issues ++ [{ type := "missing_benefits", severity := "low",
                   message := "Could emphasize customer benefits more clearly" }]
    else issues
  issues

/-- CheckerMCP._calculate_severity. -/
def calculate_severity (issues : List Issue) : String :=
  if issues = [] then "none"
  else
    let severities := issues.map (fun issue => issue.severity)
    if severities.contains "critical" then "critical"
    else if severities.contains "high" then "high"
    else if severities.contains "medium" then "medium"
    else "low"

/-- CheckerMCP.audit_product. -/
def audit_product (product : Product) : AuditResult :=
  let issues :=
    check_description product.description
      ++ check_seo_fields product
      ++ check_tone product.description
      ++ check_conversion_elements product.description
  { product_id := product.id
    product_title := product.title
    issues_found := issues.length
    issues := issues
    severity := calculate_severity issues }

/-! Generator MCP (`generator_mcp.py`). -/

/-- GeneratorMCP._needs_description_rewrite. -/
def needs_description_rewrite (issue_types : List String) : Bool :=
  let rewrite_triggers :=
    ["description_length", "missing_description", "vague_language",
     "tone_not_premium", "missing_cta", "missing_benefits"]
  rewrite_triggers.any (fun trigger => issue_types.contains trigger)

/-- GeneratorMCP._generate_description: fixed template sections concatenated in order. -/
def generate_description (product : Product) : String :=
  let title := product.title
  let product_type := product.product_type
  let part1 :=
    "Discover the exceptional quality of our " ++ title ++ ", a premium "
      ++ strLower product_type ++ " crafted for those who appreciate excellence."
  let part2 :=
    if containsCI title "cream" || containsCI product_type "skincare" then
      "\n\nExperience transformative results with our carefully formulated blend of "
        ++ "natural ingredients. This luxurious formula deeply nourishes your skin, "
        ++ "promoting a radiant, healthy complexion while reducing the visible signs of aging."
    else if containsCI title "serum" then
      "\n\nThis professional-grade serum delivers powerful anti-aging benefits through "
        ++ "a concentrated blend of scientifically-proven ingredients. Enhances skin elasticity, "
        ++ "reduces fine lines, and restores your skin" ++ apos ++ "s natural luminosity."
    else
      "\n\nMeticulously designed to deliver exceptional results, this product combines "
        ++ "premium ingredients with expert craftsmanship to exceed your expectations."
  let part3 :=
    "\n\n**Key Benefits:**\n"
      ++ "• Premium, professionally-formulated ingredients\n"
      ++ "• Visible results you can see and feel\n"
      ++ "• Suitable for all skin types\n"
      ++ "• Cruelty-free and ethically sourced"
  let part4 :=
    "\n\nTrusted by discerning customers worldwide, our " ++ title
      ++ " represents the perfect balance of luxury and effectiveness."
  let part5 :=
    "\n\nElevate your skincare routine today. Experience the difference that premium quality makes."
  part1 ++ part2 ++ part3 ++ part4 ++ part5

/-- GeneratorMCP._generate_seo_title. -/
def generate_seo_title (product : Product) : String :=
  let title := product.title
  let vendor := product.vendor
  let benefit :=
    if containsCI title "cream" then "Nourishing & Anti-Aging"
    else if containsCI title "serum" then "Professional Anti-Aging Treatment"
    else "Premium Quality"
  let seo_title := title ++ " | " ++ benefit
  let seo_title := if vendor ≠ "" then seo_title ++ " | " ++ vendor else seo_title
  if seo_title.length > 60 then title ++ " | " ++ benefit else seo_title

/-- GeneratorMCP._generate_seo_description. -/
def generate_seo_description (product : Product) : String :=
  let title := product.title
  let seo_desc :=
    if containsCI title "cream" then
      "Experience premium " ++ strLower title ++ " with natural ingredients. "
        ++ "Nourishes, protects, and rejuvenates your skin. Shop our luxury skincare collection."
    else if containsCI title "serum" then
      "Professional-grade " ++ strLower title ++ " delivers powerful anti-aging results. "
        ++ "Reduce fine lines and restore radiance. Premium quality guaranteed."
    else
      "Discover our premium " ++ strLower title ++ " - exceptional quality and results. "
        ++ "Trusted by customers worldwide. Shop now for exclusive offers."
  if seo_desc.length > 160 then seo_desc.take 157 ++ "..." else seo_desc

/-- GeneratorMCP.generate_optimized_content: each output field is regenerated
exactly when its trigger fires, and `improvements_made` accumulates the notes
in trigger-evaluation order. -/
def generate_optimized_content (product : Product) (issues : List Issue) : Optimization :=
  let issue_types := issues.map (fun issue => issue.type)
  let needsDesc := needs_description_rewrite issue_types
  let needsTitle := issue_types.contains "seo_title"
  let needsSeoDesc := issue_types.any (fun t => strStartsWith t "seo_description")
  { product_id := product.id
    original_description := product.description
    optimized_description := if needsDesc then some (generate_description product) else none
    optimized_seo_title := if needsTitle then some (generate_seo_title product) else none
    optimized_seo_description := if needsSeoDesc then some (generate_seo_description product) else none
    improvements_made :=
      (if needsDesc then ["Rewrote product description with premium tone"] else [])
        ++ (if needsTitle then ["Created SEO-optimized title"] else [])
        ++ (if needsSeoDesc then ["Created SEO meta description"] else []) }

/-! MCP server (`mcp_server.py`). -/

/-- MCPServer._determine_priority. -/
def determine_priority (audit_result : AuditResult) : String :=
  let severity := audit_result.severity
  let issue_count := audit_result.issues_found
  if severity == "critical" then "critical"
  else if severity == "high" || issue_count ≥ 5 then "high"
  else if severity == "medium" || issue_count ≥ 3 then "medium"
  else if issue_count > 0 then "low"
  else "none"

/-- MCPServer.process_single_product. -/
def process_single_product (product : Product) : ProcessingResult :=
  let audit_result := audit_product product
  { product_id := product.id
    product_title := product.title
    audit := audit_result
    optimization :=
      if audit_result.issues_found > 0 then
        some (generate_optimized_content product audit_result.issues)
      else none
    action_required := audit_result.issues_found > 0
    priority := determine_priority audit_result }

/-- MCPServer.process_products. -/
def process_products (products : List Product) : List ProcessingResult :=
  products.map process_single_product

def priority_order : List String :=
  ["none", "low", "medium", "high", "critical"]

/-- Python `list.index`: position of the first occurrence, `none` when absent
(where Python raises ValueError). -/
def list_index (xs : List String) (x : String) : Option Nat :=
  match xs with
  | [] => none
  | y :: ys => if y == x then some 0 else (list_index ys x).map (fun n => n + 1)

/-- MCPServer.process_batch_with_filters. `none` models the ValueError raised
by `priority_order.index` on an unknown level. The inner lookup always
succeeds on pipeline output (every priority is one of the five levels), so
the `false` default there is unreachable. -/
def process_batch_with_filters (products : List Product) (min_priority : String) :
    Option (List ProcessingResult) :=
  match list_index priority_order min_priority with
  | none => none
  | some min_priority_index =>
    let all_results := process_products products
    some (all_results.filter (fun result =>
      match list_index priority_order result.priority with
      | none => false
      | some i => min_priority_index ≤ i))

/-- Python truthiness of an optional string: `None` and `""` are falsy. -/
def truthyOpt : Option String → Bool
  | none => false
  | some s => s ≠ ""

/-- MCPServer.export_for_shopify: `none` models the Python `None` return. -/
def export_for_shopify (result : ProcessingResult) : Option ShopifyPayload :=
  match result.optimization with
  | none => none
  | some optimization =>
    let d := if truthyOpt optimization.optimized_description then
               optimization.optimized_description else none
    let t := if truthyOpt optimization.optimized_seo_title then
               optimization.optimized_seo_title else none
    let s := if truthyOpt optimization.optimized_seo_description then
               optimization.optimized_seo_description else none
    if d = none ∧ t = none ∧ s = none then none
    else some { product_id := result.product_id
                updates_description := d
                updates_seo_title := t
                updates_seo_description := s }

/-! Specification-side definitions, written from the spec text, to be compared
with the embedded code. -/

/-- Priority ladder as the spec states it: first matching branch wins. -/
def priority_ladder_spec (severity : String) (issues_found : Nat) : String :=
  if severity = "critical" then "critical"
  else if severity = "high" ∨ issues_found ≥ 5 then "high"
  else if severity = "medium" ∨ issues_found ≥ 3 then "medium"
  else if issues_found > 0 then "low"
  else "none"

/-- Aggregate severity as the spec states it: max by rank over the ordinal
critical, high, medium, low, with "none" for the empty list. -/
def aggregate_severity_spec (issues : List Issue) : String :=
  if issues.any (fun i => i.severity == "critical") then "critical"
  else if issues.any (fun i => i.severity == "high") then "high"
  else if issues.any (fun i => i.severity == "medium") then "medium"
  else if issues ≠ [] then "low"
  else "none"

/-- SEO title builder as the spec states it. -/
def seo_title_spec (product : Product) : String :=
  let benefit :=
    if containsCI product.title "cream" then "Nourishing & Anti-Aging"
    else if containsCI product.title "serum" then "Professional Anti-Aging Treatment"
    else "Premium Quality"
  let base := product.title ++ " | " ++ benefit
  let full := if product.vendor ≠ "" then base ++ " | " ++ product.vendor else base
  if full.length > 60 then base else full

/-- Rank of a priority level on the spec ladder none, low, medium, high, critical. -/
def priority_rank_spec (p : String) : Nat :=
  if p = "none" then 0
  else if p = "low" then 1
  else if p = "medium" then 2
  else if p = "high" then 3
  else if p = "critical" then 4
  else 5

/-- Example product from the spec's end-to-end test case. -/
def p1 : Product :=
  { id := "p1"
    title := "Organic Face Cream"
    description := "Good cream for your face. Made with natural stuff."
    seo_title := ""
    seo_description := ""
    vendor := "LuxeBeauty"
    product_type := "Skincare" }

/-- C1: processing the spec's example product yields issues including the six
named types, priority "high", and an optimization with all three optimized
fields set and exactly three improvement notes. -/
theorem c1_end_to_end_example :
    (["description_length", "vague_language", "seo_title", "seo_description_missing",
      "tone_not_premium", "missing_cta"].all
        (fun t => ((process_single_product p1).audit.issues.map Issue.type).contains t)) = true
    ∧ (process_single_product p1).priority = "high"
    ∧ ((process_single_product p1).optimization.map (fun opt =>
          (opt.optimized_description.isSome, opt.optimized_seo_title.isSome,
           opt.optimized_seo_description.isSome, opt.improvements_made.length)))
        = some (true, true, true, 3) := by
  refine ⟨by decide, by decide, by decide⟩

/-- C2: the derived priority follows the spec's first-match ladder, and in
particular an audit with at least five issues and severity "low" or "medium"
gets priority "high". -/
theorem c2_priority_ladder (a : AuditResult) :
    determine_priority a = priority_ladder_spec a.severity a.issues_found
    ∧ (5 ≤ a.issues_found → (a.severity = "low" ∨ a.severity = "medium") →
        determine_priority a = "high") := by
  constructor
  · unfold determine_priority priority_ladder_spec
    by_cases hc : a.severity = "critical"
    · simp [hc]
    · by_cases hh : a.severity = "high"
      · simp [hc, hh]
      · by_cases h5 : 5 ≤ a.issues_found
        · simp [hc, hh, h5, ge_iff_le]
        · by_cases hm : a.severity = "medium"
          · simp [hc, hh, h5, hm, ge_iff_le]
          · by_cases h3 : 3 ≤ a.issues_found
            · simp [hc, hh, h5, hm, h3, ge_iff_le]
            · by_cases h0 : 0 < a.issues_found <;>
                simp [hc, hh, h5, hm, h3, h0, ge_iff_le]
  · intro h5 hsev
    rcases hsev with h | h <;> simp [determine_priority, h, h5]

/-- Audit record used to witness the count-threshold branch of the ladder. -/
def a6 : AuditResult :=
  { product_id := "w", product_title := "w", issues_found := 6, issues := [], severity := "low" }

/-- Witness for C2 at a concrete audit with six issues and severity "low". -/
theorem c2_priority_ladder_witness :
    5 ≤ a6.issues_found ∧ (a6.severity = "low" ∨ a6.severity = "medium")
    ∧ determine_priority a6 = "high" :=
  ⟨by decide, Or.inl rfl, (c2_priority_ladder a6).2 (by decide) (Or.inl rfl)⟩

/-- C3: the SEO-description check emits at most one issue, chosen by tiers:
empty gives seo_description_missing (high); else length below 80 gives
seo_description_short (medium); else length above 160 gives
seo_description_long (low); a length in [80,160] gives none of the three. -/
theorem c3_seo_description_tiers (product : Product) :
    (check_seo_fields product).filter
        (fun i => i.type == "seo_description_missing" || i.type == "seo_description_short"
          || i.type == "seo_description_long")
      = (if product.seo_description = "" then
           [{ type := "seo_description_missing", severity := "high",
              message := "SEO description is missing" }]
         else if product.seo_description.length < 80 then
           [{ type := "seo_description_short", severity := "medium",
              message := "SEO description too short ("
                ++ toString product.seo_description.length ++ " chars)" }]
         else if product.seo_description.length > 160 then
           [{ type := "seo_description_long", severity := "low",
              message := "SEO description too long ("
                ++ toString product.seo_description.length ++ " chars). Max: "
                ++ toString (160 : Nat) }]
         else []) := by
  unfold check_seo_fields
  simp only [MIN_SEO_DESCRIPTION_LENGTH, MAX_SEO_DESCRIPTION_LENGTH,
    MIN_SEO_TITLE_LENGTH, MAX_SEO_DESCRIPTION_LENGTH]
  split_ifs <;> simp_all

/-- C4: a product with empty description gets both the missing_description
issue (critical) and the description_length issue (high). -/
theorem c4_empty_description_layering (product : Product) (h : product.description = "") :
    ({ type := "missing_description", severity := "critical",
       message := "Product description is missing" } : Issue) ∈ (audit_product product).issues
    ∧ ({ type := "description_length", severity := "high",
         message := "Description too short (0 chars). Minimum: 100" } : Issue)
        ∈ (audit_product product).issues := by
  have hc : check_description "" =
      [{ type := "description_length", severity := "high",
         message := "Description too short (0 chars). Minimum: 100" },
       { type := "missing_description", severity := "critical",
         message := "Product description is missing" }] := by decide
  have hiss : (audit_product product).issues
      = check_description product.description ++ check_seo_fields product
          ++ check_tone product.description ++ check_conversion_elements product.description := rfl
  rw [hiss, h, hc]
  constructor <;> simp

/-- Product with an empty description, used to witness C4. -/
def pEmpty : Product :=
  { id := "e", title := "Empty", description := "", seo_title := "",
    seo_description := "", vendor := "", product_type := "" }

/-- Witness for C4 at a concrete product with empty description. -/
theorem c4_empty_description_layering_witness :
    pEmpty.description = ""
    ∧ ({ type := "missing_description", severity := "critical",
         message := "Product description is missing" } : Issue) ∈ (audit_product pEmpty).issues
    ∧ ({ type := "description_length", severity := "high",
         message := "Description too short (0 chars). Minimum: 100" } : Issue)
        ∈ (audit_product pEmpty).issues :=
  ⟨rfl, (c4_empty_description_layering pEmpty rfl).1, (c4_empty_description_layering pEmpty rfl).2⟩

/-- Helper: contains on the mapped severities is an any over the issues. -/
theorem contains_map_severity (issues : List Issue) (s : String) :
    (issues.map (fun issue => issue.severity)).contains s
      = issues.any (fun i => i.severity == s) := by
  induction issues with
  | nil => rfl
  | cons i is ih =>
    simp only [List.map_cons, List.any_cons, List.contains_cons, ih]
    by_cases h : s = i.severity
    · simp [h]
    · rw [beq_eq_false_iff_ne.mpr h, beq_eq_false_iff_ne.mpr (Ne.symm h)]

/-- C5: the aggregate severity is the max by rank: critical if any critical
issue, else high if any high, else medium if any medium, else low for a
non-empty list, else none. -/
theorem c5_aggregate_severity (issues : List Issue) :
    calculate_severity issues = aggregate_severity_spec issues := by
  by_cases hnil : issues = []
  · subst hnil; decide
  · simp only [calculate_severity, aggregate_severity_spec, contains_map_severity, hnil]
    split_ifs <;> simp_all

/-- C6: the synthesized SEO title is "title | benefit" with the benefit chosen
by the title-substring rule, the vendor appended exactly when non-empty, and
the vendor suffix dropped again when the combined string exceeds 60
characters, with no further truncation. -/
theorem c6_seo_title_format (product : Product) :
    generate_seo_title product = seo_title_spec product := rfl

/-- Helper: the derived priority is always one of the five known levels. -/
theorem determine_priority_mem (a : AuditResult) :
    determine_priority a ∈ priority_order := by
  unfold determine_priority priority_order
  dsimp only
  split_ifs <;> simp

/-- Helper: on a known level, the Python list.index lookup returns its spec rank. -/
theorem list_index_rank (p : String) (hp : p ∈ priority_order) :
    list_index priority_order p = some (priority_rank_spec p) := by
  simp only [priority_order, List.mem_cons, List.not_mem_nil, or_false] at hp
  rcases hp with h | h | h | h | h <;> subst h <;> decide

/-- C7: for a valid minimum level, the filtered batch run returns exactly the
results whose priority rank on the ladder none, low, medium, high, critical
is at least the threshold rank, in the original order. -/
theorem c7_priority_filter (products : List Product) (min_priority : String)
    (h : min_priority ∈ priority_order) :
    process_batch_with_filters products min_priority
      = some ((process_products products).filter
          (fun r => priority_rank_spec min_priority ≤ priority_rank_spec r.priority)) := by
  unfold process_batch_with_filters
  rw [list_index_rank min_priority h]
  dsimp only
  congr 1
  apply List.filter_congr
  intro r hr
  obtain ⟨p, hp, rfl⟩ := List.mem_map.mp hr
  have hmem : (process_single_product p).priority ∈ priority_order :=
    determine_priority_mem (audit_product p)
  rw [list_index_rank _ hmem]

/-- Witness for C7: filtering the one-product batch at level "high". -/
theorem c7_priority_filter_witness :
    "high" ∈ priority_order
    ∧ process_batch_with_filters [p1] "high"
        = some ((process_products [p1]).filter
            (fun r => priority_rank_spec "high" ≤ priority_rank_spec r.priority)) :=
  ⟨by decide, c7_priority_filter [p1] "high" (by decide)⟩

/-- C8: an unknown minimum level makes the filtered batch run fail (the
modelled ValueError) instead of returning results. -/
theorem c8_invalid_min_priority (products : List Product) (min_priority : String)
    (h : min_priority ∉ priority_order) :
    process_batch_with_filters products min_priority = none := by
  have hnone : list_index priority_order min_priority = none := by
    simp only [priority_order, List.mem_cons, List.not_mem_nil, or_false] at h
    push_neg at h
    obtain ⟨h1, h2, h3, h4, h5⟩ := h
    simp [list_index, beq_eq_false_iff_ne.mpr (Ne.symm h1),
      beq_eq_false_iff_ne.mpr (Ne.symm h2), beq_eq_false_iff_ne.mpr (Ne.symm h3),
      beq_eq_false_iff_ne.mpr (Ne.symm h4), beq_eq_false_iff_ne.mpr (Ne.symm h5)]
  unfold process_batch_with_filters
  rw [hnone]

/-- Witness for C8 at the unknown level "urgent". -/
theorem c8_invalid_min_priority_witness :
    "urgent" ∉ priority_order ∧ process_batch_with_filters [p1] "urgent" = none :=
  ⟨by decide, c8_invalid_min_priority [p1] "urgent" (by decide)⟩

/-- Product that audits clean (zero issues), used to witness C9. -/
def pGood : Product :=
  { id := "g", title := "Radiant Face Elixir",
    description := "Discover premium results with this exceptional formula that improves skin health and delivers professional care daily.",
    seo_title := "Premium Face Care Solution for Radiant Skin",
    seo_description := "Premium face care that delivers radiant results. Discover professional skincare for everyday use and glow.",
    vendor := "Lux", product_type := "Skincare" }

/-- Processing result with no optimization attached, used to witness C9. -/
def r0 : ProcessingResult :=
  { product_id := "r0", product_title := "R0",
    audit := { product_id := "r0", product_title := "R0", issues_found := 0,
               issues := [], severity := "none" },
    optimization := none, action_required := false, priority := "none" }

/-- Optimization with only the SEO title regenerated, used to witness C9. -/
def opt1 : Optimization :=
  { product_id := "r1", original_description := "",
    optimized_description := none,
    optimized_seo_title := some "Thing | Premium Quality",
    optimized_seo_description := none,
    improvements_made := ["Created SEO-optimized title"] }

/-- Processing result carrying `opt1`, used to witness C9. -/
def r1 : ProcessingResult :=
  { product_id := "r1", product_title := "R1",
    audit := { product_id := "r1", product_title := "R1", issues_found := 1,
               issues := [{ type := "seo_title", severity := "high",
                            message := "SEO title missing or too short" }],
               severity := "high" },
    optimization := some opt1, action_required := true, priority := "high" }

/-- C9: export-for-update yields no payload when the result has no optimization
(in particular for a product with zero issues found), and otherwise yields the
product id together with exactly the regenerated (truthy) fields, never an
empty-updates object. -/
theorem c9_export_payload (result : ProcessingResult) (product : Product) :
    (result.optimization = none → export_for_shopify result = none)
    ∧ ((audit_product product).issues_found = 0 →
        export_for_shopify (process_single_product product) = none)
    ∧ (∀ opt, result.optimization = some opt →
        export_for_shopify result =
          (let d := if truthyOpt opt.optimized_description then
                      opt.optimized_description else none
           let t := if truthyOpt opt.optimized_seo_title then
                      opt.optimized_seo_title else none
           let s := if truthyOpt opt.optimized_seo_description then
                      opt.optimized_seo_description else none
           if d = none ∧ t = none ∧ s = none then none
           else some { product_id := result.product_id, updates_description := d,
                       updates_seo_title := t, updates_seo_description := s })) := by
  refine ⟨?_, ?_, ?_⟩
  · intro h
    unfold export_for_shopify
    rw [h]
  · intro h
    have hopt : (process_single_product product).optimization = none := by
      simp [process_single_product, h]
    unfold export_for_shopify
    rw [hopt]
  · intro opt h
    unfold export_for_shopify
    rw [h]

/-- Witness for C9: a result without optimization, a clean product, and a
result whose optimization regenerated only the SEO title. -/
theorem c9_export_payload_witness :
    (r0.optimization = none ∧ export_for_shopify r0 = none)
    ∧ ((audit_product pGood).issues_found = 0
        ∧ export_for_shopify (process_single_product pGood) = none)
    ∧ (r1.optimization = some opt1
        ∧ export_for_shopify r1
            = some { product_id := "r1", updates_description := none,
                     updates_seo_title := some "Thing | Premium Quality",
                     updates_seo_description := none }) :=
  ⟨⟨rfl, (c9_export_payload r0 pGood).1 rfl⟩,
   ⟨by decide, (c9_export_payload r0 pGood).2.1 (by decide)⟩,
   ⟨rfl, ((c9_export_payload r1 pGood).2.2 opt1 rfl).trans (by decide)⟩⟩

/-- All issue types the auditor can ever emit. -/
def auditTypes : List String :=
  ["description_length", "missing_description", "vague_language", "seo_title",
   "seo_description_missing", "seo_description_short", "seo_description_long",
   "tone_not_premium", "missing_cta", "missing_benefits"]

/-- Helper: issue types emitted by the description check. -/
theorem check_description_types (d : String) :
    ∀ i ∈ check_description d, i.type ∈ auditTypes := by
  unfold check_description auditTypes
  dsimp only
  split_ifs <;> intro i hi <;> simp_all <;>
    first
    | (rcases hi with rfl | rfl | rfl <;> simp)
    | (rcases hi with rfl | rfl <;> simp)
    | (rcases hi with rfl <;> simp)

/-- Helper: issue types emitted by the SEO-fields check. -/
theorem check_seo_fields_types (product : Product) :
    ∀ i ∈ check_seo_fields product, i.type ∈ auditTypes := by
  unfold check_seo_fields auditTypes
  dsimp only
  split_ifs <;> intro i hi <;> simp_all <;>
    first
    | (rcases hi with rfl | rfl | rfl <;> simp)
    | (rcases hi with rfl | rfl <;> simp)
    | (rcases hi with rfl <;> simp)

/-- Helper: issue types emitted by the tone check. -/
theorem check_tone_types (d : String) :
    ∀ i ∈ check_tone d, i.type ∈ auditTypes := by
  unfold check_tone auditTypes
  dsimp only
  split_ifs <;> intro i hi <;> simp_all <;>
    first
    | (rcases hi with rfl | rfl | rfl <;> simp)
    | (rcases hi with rfl | rfl <;> simp)
    | (rcases hi with rfl <;> simp)

/-- Helper: issue types emitted by the conversion-elements check. -/
theorem check_conversion_elements_types (d : String) :
    ∀ i ∈ check_conversion_elements d, i.type ∈ auditTypes := by
  unfold check_conversion_elements auditTypes
  dsimp only
  split_ifs <;> intro i hi <;> simp_all <;>
    first
    | (rcases hi with rfl | rfl | rfl <;> simp)
    | (rcases hi with rfl | rfl <;> simp)
    | (rcases hi with rfl <;> simp)

/-- Helper: every issue in an audit has one of the ten known types. -/
theorem audit_issue_types (product : Product) :
    ∀ i ∈ (audit_product product).issues, i.type ∈ auditTypes := by
  intro i hi
  have hiss : (audit_product product).issues
      = check_description product.description ++ check_seo_fields product
          ++ check_tone product.description
          ++ check_conversion_elements product.description := rfl
  rw [hiss] at hi
  simp only [List.mem_append] at hi
  rcases hi with ((h | h) | h) | h
  · exact check_description_types product.description i h
  · exact check_seo_fields_types product i h
  · exact check_tone_types product.description i h
  · exact check_conversion_elements_types product.description i h

/-- Helper: a string with positive length is not empty. -/
theorem ne_empty_of_pos {s : String} (h : 0 < s.length) : s ≠ "" := by
  intro he
  rw [he] at h
  exact absurd h (by decide)

/-- Helper: the generated description is never empty (its opening hook is a
fixed non-empty literal). -/
theorem generate_description_pos (product : Product) :
    0 < (generate_description product).length := by
  unfold generate_description
  dsimp only
  split_ifs <;> simp only [String.length_append] <;>
    (have h1 : 0 < String.length "Discover the exceptional quality of our " := by decide
     omega)

/-- Helper: the generated SEO title is never empty (it always contains the
separator " | "). -/
theorem generate_seo_title_pos (product : Product) :
    0 < (generate_seo_title product).length := by
  unfold generate_seo_title
  dsimp only
  split_ifs <;> simp only [String.length_append] <;>
    (have h1 : 0 < String.length " | " := by decide
     omega)

/-- Helper: the generated SEO meta description is never empty (each template
opens with a fixed literal and the truncated form ends in an ellipsis). -/
theorem generate_seo_description_pos (product : Product) :
    0 < (generate_seo_description product).length := by
  unfold generate_seo_description
  dsimp only
  split_ifs <;> simp only [String.length_append] <;>
    first
    | (have h1 : 0 < String.length "..." := by decide
       omega)
    | (have h1 : 0 < String.length "Experience premium " := by decide
       omega)
    | (have h1 : 0 < String.length "Professional-grade " := by decide
       omega)
    | (have h1 : 0 < String.length "Discover our premium " := by decide
       omega)

/-- Helper: a trigger type that is among the rewrite triggers makes the
description rewrite fire. -/
theorem needs_rewrite_of_mem {issue_types : List String} {t : String}
    (hmem : issue_types.contains t = true)
    (ht : t ∈ ["description_length", "missing_description", "vague_language",
               "tone_not_premium", "missing_cta", "missing_benefits"]) :
    needs_description_rewrite issue_types = true := by
  unfold needs_description_rewrite
  dsimp only
  exact List.any_eq_true.mpr ⟨t, ht, hmem⟩

/-- Helper: a non-empty audit always fires at least one generator trigger. -/
theorem audit_trigger (product : Product)
    (h : (audit_product product).issues ≠ []) :
    needs_description_rewrite
        ((audit_product product).issues.map (fun issue => issue.type)) = true
    ∨ ((audit_product product).issues.map (fun issue => issue.type)).contains "seo_title" = true
    ∨ ((audit_product product).issues.map (fun issue => issue.type)).any
        (fun t => strStartsWith t "seo_description") = true := by
  obtain ⟨i, hi⟩ := List.exists_mem_of_ne_nil _ h
  have htype := audit_issue_types product i hi
  have hmem : i.type ∈ (audit_product product).issues.map (fun issue => issue.type) :=
    List.mem_map.mpr ⟨i, hi, rfl⟩
  have hcont : ((audit_product product).issues.map (fun issue => issue.type)).contains i.type
      = true := List.elem_iff.mpr hmem
  simp only [auditTypes, List.mem_cons, List.not_mem_nil, or_false] at htype
  rcases htype with h1 | h1 | h1 | h1 | h1 | h1 | h1 | h1 | h1 | h1
  · exact Or.inl (needs_rewrite_of_mem (h1 ▸ hcont) (by simp))
  · exact Or.inl (needs_rewrite_of_mem (h1 ▸ hcont) (by simp))
  · exact Or.inl (needs_rewrite_of_mem (h1 ▸ hcont) (by simp))
  · exact Or.inr (Or.inl (h1 ▸ hcont))
  · exact Or.inr (Or.inr (List.any_eq_true.mpr ⟨i.type, hmem, by rw [h1]; decide⟩))
  · exact Or.inr (Or.inr (List.any_eq_true.mpr ⟨i.type, hmem, by rw [h1]; decide⟩))
  · exact Or.inr (Or.inr (List.any_eq_true.mpr ⟨i.type, hmem, by rw [h1]; decide⟩))
  · exact Or.inl (needs_rewrite_of_mem (h1 ▸ hcont) (by simp))
  · exact Or.inl (needs_rewrite_of_mem (h1 ▸ hcont) (by simp))
  · exact Or.inl (needs_rewrite_of_mem (h1 ▸ hcont) (by simp))

/-- Helper: the optimized description field of the synthesizer output. -/
theorem goc_desc (product : Product) (issues : List Issue) :
    (generate_optimized_content product issues).optimized_description
      = if needs_description_rewrite (issues.map (fun issue => issue.type)) then
          some (generate_description product) else none := rfl

/-- Helper: the optimized SEO title field of the synthesizer output. -/
theorem goc_title (product : Product) (issues : List Issue) :
    (generate_optimized_content product issues).optimized_seo_title
      = if (issues.map (fun issue => issue.type)).contains "seo_title" then
          some (generate_seo_title product) else none := rfl

/-- Helper: the optimized SEO description field of the synthesizer output. -/
theorem goc_seo_desc (product : Product) (issues : List Issue) :
    (generate_optimized_content product issues).optimized_seo_description
      = if (issues.map (fun issue => issue.type)).any
            (fun t => strStartsWith t "seo_description") then
          some (generate_seo_description product) else none := rfl

/-- Helper: the improvement notes of the synthesizer output. -/
theorem goc_imp (product : Product) (issues : List Issue) :
    (generate_optimized_content product issues).improvements_made
      = (if needs_description_rewrite (issues.map (fun issue => issue.type)) then
           ["Rewrote product description with premium tone"] else [])
        ++ (if (issues.map (fun issue => issue.type)).contains "seo_title" then
             ["Created SEO-optimized title"] else [])
        ++ (if (issues.map (fun issue => issue.type)).any
              (fun t => strStartsWith t "seo_description") then
             ["Created SEO meta description"] else []) := rfl

/-- Helper: when some optimization field is truthy, the export payload exists
and its updates mapping is non-empty. -/
theorem export_nonempty_of_truthy (r : ProcessingResult) (opt : Optimization)
    (hopt : r.optimization = some opt)
    (h : truthyOpt opt.optimized_description = true
         ∨ truthyOpt opt.optimized_seo_title = true
         ∨ truthyOpt opt.optimized_seo_description = true) :
    ∃ payload, export_for_shopify r = some payload
      ∧ (payload.updates_description ≠ none ∨ payload.updates_seo_title ≠ none
           ∨ payload.updates_seo_description ≠ none) := by
  unfold export_for_shopify
  rw [hopt]
  dsimp only
  rcases h with h | h | h
  · have hne : (if truthyOpt opt.optimized_description then opt.optimized_description
        else none) ≠ none := by
      rw [if_pos h]
      cases hod : opt.optimized_description with
      | none => rw [hod] at h; exact absurd h (by decide)
      | some s => simp
    rw [if_neg (fun hc => hne hc.1)]
    exact ⟨_, rfl, Or.inl hne⟩
  · have hne : (if truthyOpt opt.optimized_seo_title then opt.optimized_seo_title
        else none) ≠ none := by
      rw [if_pos h]
      cases hod : opt.optimized_seo_title with
      | none => rw [hod] at h; exact absurd h (by decide)
      | some s => simp
    rw [if_neg (fun hc => hne hc.2.1)]
    exact ⟨_, rfl, Or.inr (Or.inl hne)⟩
  · have hne : (if truthyOpt opt.optimized_seo_description then opt.optimized_seo_description
        else none) ≠ none := by
      rw [if_pos h]
      cases hod : opt.optimized_seo_description with
      | none => rw [hod] at h; exact absurd h (by decide)
      | some s => simp
    rw [if_neg (fun hc => hne hc.2.2)]
    exact ⟨_, rfl, Or.inr (Or.inr hne)⟩

/-- C10: every issue type the auditor can emit triggers a synthesizer field:
a product with at least one audited issue gets an optimization with a truthy
optimized field and non-empty improvement notes, and its export payload
exists with a non-empty updates mapping. -/
theorem c10_issues_imply_updates (product : Product)
    (h : 0 < (audit_product product).issues_found) :
    (∃ opt, (process_single_product product).optimization = some opt
       ∧ (truthyOpt opt.optimized_description = true
            ∨ truthyOpt opt.optimized_seo_title = true
            ∨ truthyOpt opt.optimized_seo_description = true)
       ∧ opt.improvements_made ≠ [])
    ∧ (∃ payload, export_for_shopify (process_single_product product) = some payload
         ∧ (payload.updates_description ≠ none ∨ payload.updates_seo_title ≠ none
              ∨ payload.updates_seo_description ≠ none)) := by
  have hopt : (process_single_product product).optimization
      = some (generate_optimized_content product (audit_product product).issues) := by
    simp [process_single_product, h]
  have hne : (audit_product product).issues ≠ [] := by
    intro he
    have hlen : (audit_product product).issues_found
        = (audit_product product).issues.length := rfl
    rw [hlen, he] at h
    exact absurd h (by decide)
  rcases audit_trigger product hne with hT | hT | hT
  · have hd : (generate_optimized_content product
        (audit_product product).issues).optimized_description
        = some (generate_description product) := by
      rw [goc_desc, hT]
      simp
    have htr : truthyOpt (generate_optimized_content product
        (audit_product product).issues).optimized_description = true := by
      rw [hd]
      simp [truthyOpt, ne_empty_of_pos (generate_description_pos product)]
    have himp : (generate_optimized_content product
        (audit_product product).issues).improvements_made ≠ [] := by
      rw [goc_imp, hT]
      simp
    exact ⟨⟨_, hopt, Or.inl htr, himp⟩,
           export_nonempty_of_truthy _ _ hopt (Or.inl htr)⟩
  · have hd : (generate_optimized_content product
        (audit_product product).issues).optimized_seo_title
        = some (generate_seo_title product) := by
      rw [goc_title, hT]
      simp
    have htr : truthyOpt (generate_optimized_content product
        (audit_product product).issues).optimized_seo_title = true := by
      rw [hd]
      simp [truthyOpt, ne_empty_of_pos (generate_seo_title_pos product)]
    have himp : (generate_optimized_content product
        (audit_product product).issues).improvements_made ≠ [] := by
      rw [goc_imp, hT]
      simp
    exact ⟨⟨_, hopt, Or.inr (Or.inl htr), himp⟩,
           export_nonempty_of_truthy _ _ hopt (Or.inr (Or.inl htr))⟩
  · have hd : (generate_optimized_content product
        (audit_product product).issues).optimized_seo_description
        = some (generate_seo_description product) := by
      rw [goc_seo_desc, hT]
      simp
    have htr : truthyOpt (generate_optimized_content product
        (audit_product product).issues).optimized_seo_description = true := by
      rw [hd]
      simp [truthyOpt, ne_empty_of_pos (generate_seo_description_pos product)]
    have himp : (generate_optimized_content product
        (audit_product product).issues).improvements_made ≠ [] := by
      rw [goc_imp, hT]
      simp
    exact ⟨⟨_, hopt, Or.inr (Or.inr htr), himp⟩,
           export_nonempty_of_truthy _ _ hopt (Or.inr (Or.inr htr))⟩

/-- Witness for C10 at the spec's example product, which has seven issues. -/
theorem c10_issues_imply_updates_witness :
    0 < (audit_product p1).issues_found
    ∧ ((∃ opt, (process_single_product p1).optimization = some opt
          ∧ (truthyOpt opt.optimized_description = true
               ∨ truthyOpt opt.optimized_seo_title = true
               ∨ truthyOpt opt.optimized_seo_description = true)
          ∧ opt.improvements_made ≠ [])
       ∧ (∃ payload, export_for_shopify (process_single_product p1) = some payload
            ∧ (payload.updates_description ≠ none ∨ payload.updates_seo_title ≠ none
                 ∨ payload.updates_seo_description ≠ none))) :=
  ⟨by decide, c10_issues_imply_updates p1 (by decide)⟩
